import Mathlib

/-!
Shallow embedding of src/bot.py (RapidFileConvertBot).

The bot keeps two module-level dicts: USER_ACTIONS (the Session Store — per
user pending action, plus an accumulated file list for merge) and USER_TEMP
(fallback uploads stored per user when no action is pending).  Every upload
handler first allocates a fresh temporary directory (ensure_tempdir); a
workspace is identified here by the Nat that ensure_tempdir issues, and the
set of live (created, not yet removed) workspaces is tracked in
BotState.live.  cleanup_dir removes a workspace from the live list and is
idempotent, mirroring shutil.rmtree wrapped in try/except.

External conversion engines (PIL, pdf2image, PyPDF2, pdf2docx, LibreOffice)
and the Telegram delivery call are modelled by a ConvResult oracle passed to
each handler: ConvResult.ok is the path where the conversion and the reply
succeed, ConvResult.err m the path where they raise an exception with
message m.  Chat replies are returned as a list of message strings; texts
are kept verbatim where a claim mentions them and abridged otherwise.
-/

namespace RFC

/-- The eight upload-requiring actions of the bot (the string tags used in
USER_ACTIONS and in callback data). -/
inductive Action where
  | pdf_to_word
  | docx_to_pdf
  | pdf_to_jpg
  | jpg_to_pdf
  | png_to_jpg
  | jpg_to_png
  | compress
  | merge
  deriving DecidableEq, Repr

/-- One entry of USER_ACTIONS: the pending action, and for merge the list of
accumulated files, each recorded as (workspace id of its tempdir, filename).
For non-merge actions the Python dict has no files key; files is []. -/
structure ActionInfo where
  action : Action
  files : List (Nat × String)
  deriving DecidableEq, Repr

/-- One entry of a USER_TEMP list: the stored path and its tempdir. -/
structure StoredFile where
  path : String
  dir : Nat
  deriving DecidableEq, Repr

/-- Global mutable state of bot.py: USER_ACTIONS, USER_TEMP, the workspace
id counter and the set of live (created, not yet removed) workspaces. -/
structure BotState where
  userActions : Nat → Option ActionInfo
  userTemp : Nat → List StoredFile
  nextWs : Nat
  live : List Nat

/-- Outcome of calling an external conversion engine (and delivering the
result): success, or an exception with a message. -/
inductive ConvResult where
  | ok
  | err (msg : String)
  deriving DecidableEq, Repr

def MAX_UPLOAD_MB : Nat := 50

/-- ensure_tempdir: tempfile.mkdtemp — allocates a fresh workspace.  The id
of the new workspace is the pre-state nextWs. -/
def ensure_tempdir (s : BotState) : BotState :=
  { s with nextWs := s.nextWs + 1, live := s.nextWs :: s.live }

/-- cleanup_dir: shutil.rmtree wrapped in try/except — removes the workspace
from the live set; idempotent, never fails. -/
def cleanup_dir (w : Nat) (s : BotState) : BotState :=
  { s with live := s.live.filter (fun x => x != w) }

/-- USER_ACTIONS[u] = info -/
def setAction (u : Nat) (info : ActionInfo) (s : BotState) : BotState :=
  { s with userActions := fun v => if v = u then some info else s.userActions v }

/-- USER_ACTIONS.pop(u, None) -/
def popAction (u : Nat) (s : BotState) : BotState :=
  { s with userActions := fun v => if v = u then none else s.userActions v }

/-- USER_TEMP.setdefault(u, []).append(...) -/
def pushTemp (u : Nat) (path : String) (dir : Nat) (s : BotState) : BotState :=
  { s with userTemp := fun v => if v = u then s.userTemp v ++ [⟨path, dir⟩] else s.userTemp v }

/-- ASCII lowercasing of one character.  Python str.lower() is full Unicode,
but filenames in the claims and the extension table are ASCII, where the two
agree. -/
def lowerChar (c : Char) : Char :=
  if 65 ≤ c.toNat ∧ c.toNat ≤ 90 then Char.ofNat (c.toNat + 32) else c

/-- str.lower() on the character list of the string. -/
def lowerStr (s : String) : String := ⟨s.data.map lowerChar⟩

/-- str.endswith(t): t is a suffix of s. -/
def endsWithStr (s t : String) : Bool := t.data.isSuffixOf s.data

/-- The extension checks of handle_document, per action, on the lowercased
destination name (str(dest).lower().endswith(...)), in source order. -/
def docAccepts (act : Action) (d : String) : Bool :=
  match act with
  | Action.merge => endsWithStr d ".pdf"
  | Action.pdf_to_word => endsWithStr d ".pdf"
  | Action.docx_to_pdf => endsWithStr d ".docx" || endsWithStr d ".doc"
  | Action.pdf_to_jpg => endsWithStr d ".pdf"
  | Action.jpg_to_pdf =>
      endsWithStr d ".jpg" || endsWithStr d ".jpeg" || endsWithStr d ".png" ||
      endsWithStr d ".bmp" || endsWithStr d ".tiff"
  | Action.png_to_jpg =>
      endsWithStr d ".png" || endsWithStr d ".jpg" || endsWithStr d ".jpeg" ||
      endsWithStr d ".bmp" || endsWithStr d ".tiff"
  | Action.jpg_to_png =>
      endsWithStr d ".jpg" || endsWithStr d ".jpeg" || endsWithStr d ".png" ||
      endsWithStr d ".bmp" || endsWithStr d ".tiff"
  | Action.compress => endsWithStr d ".pdf"

/-- File validation as performed by handle_document: lowercase the name and
test the extension against the pending action. -/
def validate (act : Action) (fname : String) : Bool :=
  docAccepts act (lowerStr fname)

def msgTooLarge : String := "File too large. Max allowed is 50 MB."

def msgNoActionDoc : String :=
  "I received your file - but first please choose what you want me to do. Use /menu or type a command."

def msgNoActionPhoto : String :=
  "I received your photo, but please choose an action first (Use /menu)."

def msgMergeOnlyPdf : String :=
  "Only PDF files are accepted for merging. Please upload PDFs."

def msgMergeSaved : String :=
  "PDF saved for merging. Upload more files or press Merge Now in the menu."

def msgNoMergeSession : String :=
  "No merge session found. Click Merge from the menu first."

def msgNeedTwo : String := "Please upload at least two PDFs before merging."

def msgPhotoMismatch : String :=
  "This upload does not match your pending action. Use /menu to choose the correct tool."

/-- The per-action validation-failure reply of handle_document (abridged). -/
def validationMsg (act : Action) : String :=
  match act with
  | Action.pdf_to_word => "Please upload a PDF for PDF to Word conversion."
  | Action.docx_to_pdf => "Please upload a DOCX file for Word to PDF conversion."
  | Action.pdf_to_jpg => "Please upload a PDF for PDF to JPG conversion."
  | Action.jpg_to_pdf => "Please upload an image for JPG to PDF conversion."
  | Action.png_to_jpg => "Please upload an image (PNG preferred) for PNG to JPG conversion."
  | Action.jpg_to_png => "Please upload an image (JPG preferred) for JPG to PNG conversion."
  | Action.compress => "Please upload a PDF to compress."
  | Action.merge => ""

/-- The per-action progress reply of handle_document (abridged). -/
def convertingMsg (act : Action) : String :=
  match act with
  | Action.pdf_to_word => "Converting PDF to Word (DOCX)..."
  | Action.docx_to_pdf => "Converting Word to PDF (LibreOffice)..."
  | Action.pdf_to_jpg => "Converting PDF to JPG pages..."
  | Action.jpg_to_pdf => "Converting image to PDF..."
  | Action.png_to_jpg => "Converting PNG to JPG..."
  | Action.jpg_to_png => "Converting JPG to PNG..."
  | Action.compress => "Compressing PDF..."
  | Action.merge => ""

/-- The per-action success reply of handle_document (abridged). -/
def successMsg (act : Action) : String :=
  match act with
  | Action.pdf_to_word => "PDF converted to Word (DOCX)"
  | Action.docx_to_pdf => "DOCX converted to PDF"
  | Action.pdf_to_jpg => "Done - sent all page images."
  | Action.jpg_to_pdf => "Image converted to PDF"
  | Action.png_to_jpg => "PNG converted to JPG"
  | Action.jpg_to_png => "JPG converted to PNG"
  | Action.compress => "Compressed PDF"
  | Action.merge => ""

/-- The try block of handle_document for a single-file action (act is never
merge here: the merge branch returns earlier).  On validation failure the
upload tempdir is freed and the function returns (the finally block will
free it again, harmlessly).  On engine success a fresh out_dir workspace is
created, the result delivered, and out_dir freed.  On an engine exception
control jumps to the except clause, so out_dir is NOT freed here — exactly
as in the source, where cleanup_dir(out_dir) sits after the conversion call
inside the try block. -/
def single_file_try (fname : String) (tempdir : Nat) (act : Action)
    (engine : ConvResult) (s : BotState) : BotState × List String :=
  if validate act fname then
    let out_dir := s.nextWs
    let s1 := ensure_tempdir s
    match engine with
    | ConvResult.ok => (cleanup_dir out_dir s1, [convertingMsg act, successMsg act])
    | ConvResult.err m => (s1, [convertingMsg act, "Conversion failed: " ++ m])
  else
    (cleanup_dir tempdir s, [validationMsg act])

/-- handle_document: download to a fresh tempdir, check the 50 MB limit
(bytes_to_mb is division by 2 to the 20, exact in binary floating point, so
the Python comparison is exactly sizeBytes > 50 * 1024 * 1024), look up the
pending action, then: no action — store in USER_TEMP (the tempdir stays
live); merge — validate and accumulate, or free the tempdir; single-file
action — run the try block, then the finally block pops USER_ACTIONS[u] and
frees the tempdir.  ensure_tempdir does not touch USER_ACTIONS, so the
lookup reads the pre-state dict. -/
def handle_document (u : Nat) (fname : String) (sizeBytes : Nat)
    (engine : ConvResult) (s : BotState) : BotState × List String :=
  let tempdir := s.nextWs
  let s1 := ensure_tempdir s
  if MAX_UPLOAD_MB * 1024 * 1024 < sizeBytes then
    (cleanup_dir tempdir s1, ["Downloading file...", msgTooLarge])
  else
    match s.userActions u with
    | none =>
        (pushTemp u fname tempdir s1, ["Downloading file...", msgNoActionDoc])
    | some info =>
        if info.action = Action.merge then
          if validate Action.merge fname then
            (setAction u ⟨Action.merge, info.files ++ [(tempdir, fname)]⟩ s1,
             ["Downloading file...", msgMergeSaved])
          else
            (cleanup_dir tempdir s1, ["Downloading file...", msgMergeOnlyPdf])
        else
          let r := single_file_try fname tempdir info.action engine s1
          (cleanup_dir tempdir (popAction u r.1), "Downloading file..." :: r.2)

/-- The try block of handle_photo: for the three image actions a fresh
out_dir is created and the conversion run (on an exception out_dir is not
freed, as in the source); any other pending action gets the mismatch reply
with no state change. -/
def photo_try (act : Action) (engine : ConvResult) (s : BotState) :
    BotState × List String :=
  if act = Action.jpg_to_pdf ∨ act = Action.jpg_to_png ∨ act = Action.png_to_jpg then
    let out_dir := s.nextWs
    let s1 := ensure_tempdir s
    match engine with
    | ConvResult.ok => (cleanup_dir out_dir s1, [convertingMsg act, successMsg act])
    | ConvResult.err m => (s1, [convertingMsg act, "Conversion failed: " ++ m])
  else
    (s, [msgPhotoMismatch])

/-- handle_photo: download the photo to a fresh tempdir as photo_<id>.jpg —
the source performs NO size check on photos; the sizeBytes argument is
carried only to state that fact.  With no pending action the tempdir is
freed and the function returns before the try block.  Otherwise the try
block runs and the finally block pops USER_ACTIONS[u] (whatever the pending
action was) and frees the tempdir. -/
def handle_photo (u : Nat) (sizeBytes : Nat) (engine : ConvResult)
    (s : BotState) : BotState × List String :=
  let tempdir := s.nextWs
  let s1 := ensure_tempdir s
  match s.userActions u with
  | none =>
      (cleanup_dir tempdir s1, ["Downloading photo...", msgNoActionPhoto])
  | some info =>
      let r := photo_try info.action engine s1
      (cleanup_dir tempdir (popAction u r.1), "Downloading photo..." :: r.2)

/-- menu_callback for an action button, and the *_command handlers: set the
pending action, overwriting whatever USER_ACTIONS held — nothing is freed.
For merge the entry starts with an empty file list. -/
def set_pending_action (u : Nat) (cmd : Action) (s : BotState) :
    BotState × List String :=
  if cmd = Action.merge then
    (setAction u ⟨Action.merge, []⟩ s,
     ["Merge selected. Upload PDFs now (send as documents). When ready, press Merge Now."])
  else
    (setAction u ⟨cmd, []⟩ s,
     ["OK - please upload the file (as a document or photo depending on type)."])

/-- /merge command handler (same state effect as the merge menu button). -/
def merge_command (u : Nat) (s : BotState) : BotState × List String :=
  (setAction u ⟨Action.merge, []⟩ s,
   ["Merge selected. Upload multiple PDFs (send as documents), then press Merge Now."])

/-- /compress command handler. -/
def compress_command (u : Nat) (s : BotState) : BotState × List String :=
  (setAction u ⟨Action.compress, []⟩ s,
   ["Compress selected. Please upload the PDF (send as a document)."])

/-- /pdf_to_word command handler. -/
def pdf_to_word_command (u : Nat) (s : BotState) : BotState × List String :=
  (setAction u ⟨Action.pdf_to_word, []⟩ s,
   ["PDF to Word selected. Please upload the PDF (send as a document)."])

/-- menu_callback on merge_now: missing or non-merge session — reject;
fewer than two files — reject with no state change; otherwise allocate the
output workspace, run the merge engine, and in the finally block free every
accumulated file workspace (cleanup_dir(Path(p).parent)), pop the session,
and free the output workspace. -/
def merge_now (u : Nat) (engine : ConvResult) (s : BotState) :
    BotState × List String :=
  match s.userActions u with
  | none => (s, [msgNoMergeSession])
  | some info =>
      if info.action = Action.merge then
        if info.files.length < 2 then
          (s, [msgNeedTwo])
        else
          let out_dir := s.nextWs
          let s1 := ensure_tempdir s
          let msgs :=
            match engine with
            | ConvResult.ok => ["Here is your merged PDF"]
            | ConvResult.err m => ["Merge failed: " ++ m]
          let s2 := info.files.foldl (fun st f => cleanup_dir f.1 st) s1
          (cleanup_dir out_dir (popAction u s2), msgs)
      else (s, [msgNoMergeSession])

/-- menu_callback on cancel_action: pop the session (accumulated merge
workspaces are not freed by this handler). -/
def cancel_action (u : Nat) (s : BotState) : BotState × List String :=
  (popAction u s, ["Action cancelled."])

/-- The empty start state: no sessions, no stored files, no workspaces. -/
def initState : BotState :=
  { userActions := fun _ => none, userTemp := fun _ => [], nextWs := 0, live := [] }

/-! ### Conversion engines (the pure parts embedded from the source) -/

/-- A page of a document is abstract here. -/
abbrev Page := Nat

/-- merge_pdfs: a PdfWriter starts empty; for each input in list order every
page of that input is appended; the writer is then written out.  A document
is modelled by its page list. -/
def merge_pdfs (docs : List (List Page)) : List Page :=
  docs.foldl (fun writer doc => writer ++ doc) []

/-- A pixel with red, green, blue and alpha channels (0..255). -/
structure Pix where
  r : Nat
  g : Nat
  b : Nat
  a : Nat
  deriving DecidableEq, Repr

/-- The PIL modes the embedded conversions distinguish (the source branches
on RGBA; other modes pass through those branches unchanged). -/
inductive PMode where
  | RGB
  | RGBA
  deriving DecidableEq, Repr

/-- A PIL image: its mode and its pixels in raster order. -/
structure Img where
  mode : PMode
  pixels : List Pix
  deriving DecidableEq, Repr

/-- PIL Image.convert to RGB from RGBA: the alpha band is discarded and the
stored r, g, b channel values are kept as they are — no compositing against
any background happens.  (The alpha of an RGB pixel is represented as the
constant 255.) -/
def convertRGB (im : Img) : Img :=
  ⟨PMode.RGB, im.pixels.map (fun p => ⟨p.r, p.g, p.b, 255⟩)⟩

/-- The per-image processing step of images_to_pdf: RGBA images are passed
through Image.convert to RGB, all others are used as opened. -/
def imgStep (im : Img) : Img :=
  if im.mode = PMode.RGBA then convertRGB im else im

/-- images_to_pdf: open each image, convert RGBA images to RGB, raise
ValueError when the list is empty (none), else save the first image with the
rest appended — the output document has the processed images as its pages in
input order. -/
def images_to_pdf (imgs : List Img) : Option (List Img) :=
  let images := imgs.map imgStep
  if images.isEmpty then none else some images

/-- Pillow's MULDIV255 rounding primitive used by Image.paste with an L
mask: tmp = x*y + 128; result = ((tmp >> 8) + tmp) >> 8. -/
def muldiv255 (x y : Nat) : Nat :=
  ((x * y + 128) / 256 + (x * y + 128)) / 256

/-- One pixel of the JPEG branch of convert_image_format: a white RGB
background, pasted over with the RGB-converted image using the alpha band as
mask — Pillow blends out = MULDIV255(bg, 255 - a) + MULDIV255(src, a) per
channel. -/
def whitePaste (p : Pix) : Pix :=
  ⟨muldiv255 255 (255 - p.a) + muldiv255 p.r p.a,
   muldiv255 255 (255 - p.a) + muldiv255 p.g p.a,
   muldiv255 255 (255 - p.a) + muldiv255 p.b p.a, 255⟩

/-- convert_image_format with out_format JPEG: an image with an alpha
channel is composited onto a white background (the source also treats LA and
palette-with-transparency this way; RGBA is the mode modelled here), any
other image is converted to RGB directly. -/
def convert_image_format_jpeg (im : Img) : Img :=
  if im.mode = PMode.RGBA then ⟨PMode.RGB, im.pixels.map whitePaste⟩
  else convertRGB im

/-- Modelled from the spec (for comparison against images_to_pdf): the
image-set-to-document row of the operation table says alpha is composited
onto a white background before encoding; this definition applies that
compositing to every RGBA input. -/
def spec_images_to_pdf (imgs : List Img) : Option (List Img) :=
  let images :=
    imgs.map (fun im =>
      if im.mode = PMode.RGBA then ⟨PMode.RGB, im.pixels.map whitePaste⟩ else im)
  if images.isEmpty then none else some images

/-- The RGB channels of a pixel, used to compare conversion outputs. -/
def rgbOf (p : Pix) : Nat × Nat × Nat := (p.r, p.g, p.b)

/-! ### Helper lemmas about the state operations -/

theorem cleanup_userActions (w : Nat) (s : BotState) :
    (cleanup_dir w s).userActions = s.userActions := rfl

theorem cleanup_userTemp (w : Nat) (s : BotState) :
    (cleanup_dir w s).userTemp = s.userTemp := rfl

theorem not_mem_cleanup_self (w : Nat) (s : BotState) :
    w ∉ (cleanup_dir w s).live := by
  simp [cleanup_dir, List.mem_filter]

theorem mem_of_mem_cleanup {x w : Nat} {s : BotState}
    (h : x ∈ (cleanup_dir w s).live) : x ∈ s.live := by
  simp only [cleanup_dir, List.mem_filter] at h
  exact h.1

theorem not_mem_cleanup {x w : Nat} {s : BotState} (h : x ∉ s.live) :
    x ∉ (cleanup_dir w s).live :=
  fun hx => h (mem_of_mem_cleanup hx)

theorem mem_cleanup_of_ne {x w : Nat} {s : BotState} (hx : x ∈ s.live)
    (hne : x ≠ w) : x ∈ (cleanup_dir w s).live := by
  simp only [cleanup_dir, List.mem_filter, bne_iff_ne, ne_eq, decide_eq_true_eq]
  exact ⟨hx, hne⟩

theorem cleanup_of_not_mem {w : Nat} {s : BotState} (h : w ∉ s.live) :
    (cleanup_dir w s).live = s.live := by
  simp only [cleanup_dir]
  apply List.filter_eq_self.mpr
  intro a ha
  simp only [bne_iff_ne, ne_eq, decide_eq_true_eq]
  exact fun he => h (he ▸ ha)

theorem foldl_cleanup_userActions (fs : List (Nat × String)) (s : BotState) :
    (fs.foldl (fun st f => cleanup_dir f.1 st) s).userActions = s.userActions := by
  induction fs generalizing s with
  | nil => rfl
  | cons f fs ih => simpa using ih (cleanup_dir f.1 s)

theorem mem_of_mem_foldl_cleanup {x : Nat} {fs : List (Nat × String)} {s : BotState}
    (h : x ∈ (fs.foldl (fun st f => cleanup_dir f.1 st) s).live) : x ∈ s.live := by
  induction fs generalizing s with
  | nil => simpa using h
  | cons f fs ih => exact mem_of_mem_cleanup (ih h)

theorem not_mem_foldl_cleanup_of_mem {x : Nat} {fs : List (Nat × String)} {s : BotState}
    (h : x ∈ fs.map Prod.fst) :
    x ∉ (fs.foldl (fun st f => cleanup_dir f.1 st) s).live := by
  induction fs generalizing s with
  | nil => simp at h
  | cons f fs ih =>
      simp only [List.map_cons, List.mem_cons] at h
      cases h with
      | inl he =>
          intro hx
          have hx2 : x ∈ (cleanup_dir f.1 s).live := mem_of_mem_foldl_cleanup hx
          exact not_mem_cleanup_self f.1 s (he ▸ hx2)
      | inr hm => exact ih hm

theorem popAction_live (u : Nat) (s : BotState) : (popAction u s).live = s.live := rfl

theorem popAction_self (u : Nat) (s : BotState) : (popAction u s).userActions u = none := by
  simp [popAction]

theorem setAction_self (u : Nat) (info : ActionInfo) (s : BotState) :
    (setAction u info s).userActions u = some info := by
  simp [setAction]

/-- Allocating a fresh workspace and then freeing it restores the live set,
provided the fresh id was not already live. -/
theorem cleanup_ensure_live (s : BotState) (h : s.nextWs ∉ s.live) :
    (cleanup_dir s.nextWs (ensure_tempdir s)).live = s.live := by
  show (s.nextWs :: s.live).filter (fun x => x != s.nextWs) = s.live
  rw [List.filter_cons_of_neg]
  · apply List.filter_eq_self.mpr
    intro a ha
    simp only [bne_iff_ne, ne_eq, decide_eq_true_eq]
    exact fun he => h (he ▸ ha)
  · simp

/-- A foldl of writer-append starting from any accumulator is the
accumulator followed by the concatenation of the inputs. -/
theorem foldl_append_eq (docs : List (List Page)) (acc : List Page) :
    docs.foldl (fun w d => w ++ d) acc = acc ++ docs.flatten := by
  induction docs generalizing acc with
  | nil => simp
  | cons d ds ih => simp [ih, List.append_assoc]

/-! ### Claims -/

/-- C1 counterexample: user 0 uploads a.pdf as a document with no pending
intent.  The claim says the uploaded workspace is freed immediately and the
file is never placed anywhere; in the code the workspace (id 0) is still
live afterwards and the file has been stored in USER_TEMP[0]. -/
theorem C1_counterexample :
    (handle_document 0 "a.pdf" 5 ConvResult.ok initState).1.live = [0] ∧
    (handle_document 0 "a.pdf" 5 ConvResult.ok initState).1.userTemp 0 =
      [⟨"a.pdf", 0⟩] :=
  ⟨rfl, rfl⟩

/-- C1 (amended): an upload with no pending intent is always rejected with a
notice and never creates a Session Store (USER_ACTIONS) entry; for a photo
upload the workspace is also freed and USER_TEMP is untouched, but for a
document upload the workspace is retained, stored together with the file in
the per-user USER_TEMP fallback list instead of being freed. -/
theorem C1_no_intent_reject (s : BotState) (u : Nat) (fname : String)
    (sizeBytes : Nat) (engine : ConvResult)
    (hact : s.userActions u = none)
    (hsize : ¬ MAX_UPLOAD_MB * 1024 * 1024 < sizeBytes)
    (hfresh : s.nextWs ∉ s.live) :
    ((handle_document u fname sizeBytes engine s).1.userActions u = none ∧
     (handle_document u fname sizeBytes engine s).1.userTemp u =
        s.userTemp u ++ [⟨fname, s.nextWs⟩] ∧
     s.nextWs ∈ (handle_document u fname sizeBytes engine s).1.live ∧
     (handle_document u fname sizeBytes engine s).2 =
        ["Downloading file...", msgNoActionDoc]) ∧
    ((handle_photo u sizeBytes engine s).1.userActions u = none ∧
     (handle_photo u sizeBytes engine s).1.userTemp u = s.userTemp u ∧
     (handle_photo u sizeBytes engine s).1.live = s.live ∧
     (handle_photo u sizeBytes engine s).2 =
        ["Downloading photo...", msgNoActionPhoto]) := by
  constructor
  · simp [handle_document, hsize, hact, pushTemp, ensure_tempdir]
  · simp [handle_photo, hact, cleanup_ensure_live s hfresh]
    exact ⟨hact, rfl⟩

/-- C1 witness: the amended statement at user 3, file x.bin of 7 bytes, on
the empty start state. -/
theorem C1_no_intent_reject_witness :
    ((handle_document 3 "x.bin" 7 ConvResult.ok initState).1.userActions 3 = none ∧
     (handle_document 3 "x.bin" 7 ConvResult.ok initState).1.userTemp 3 =
        initState.userTemp 3 ++ [⟨"x.bin", initState.nextWs⟩] ∧
     initState.nextWs ∈ (handle_document 3 "x.bin" 7 ConvResult.ok initState).1.live ∧
     (handle_document 3 "x.bin" 7 ConvResult.ok initState).2 =
        ["Downloading file...", msgNoActionDoc]) ∧
    ((handle_photo 3 7 ConvResult.ok initState).1.userActions 3 = none ∧
     (handle_photo 3 7 ConvResult.ok initState).1.userTemp 3 = initState.userTemp 3 ∧
     (handle_photo 3 7 ConvResult.ok initState).1.live = initState.live ∧
     (handle_photo 3 7 ConvResult.ok initState).2 =
        ["Downloading photo...", msgNoActionPhoto]) :=
  C1_no_intent_reject initState 3 "x.bin" 7 ConvResult.ok rfl (by decide) (by simp [initState])

/-- C2: user 0 declares merge, uploads a.pdf (workspace 0 is retained in the
merge session), then declares compress.  The declaration overwrites the
session — the new entry carries no files — but workspace 0 is still live:
nothing freed it at the overwrite, and no reference to it remains, so it can
never be freed.  This contradicts the claim (and the delete-exactly-once
invariant), which the specification itself flags as a source bug. -/
theorem C2_overwrite_leaks_workspace :
    ((compress_command 0
        ((handle_document 0 "a.pdf" 5 ConvResult.ok
          ((merge_command 0 initState).1)).1)).1.userActions 0 =
      some ⟨Action.compress, []⟩) ∧
    ((compress_command 0
        ((handle_document 0 "a.pdf" 5 ConvResult.ok
          ((merge_command 0 initState).1)).1)).1.live = [0]) :=
  ⟨by decide, by decide⟩

/-- C3 counterexample: user 0 declares compress and uploads in.pdf, and the
conversion engine raises.  This is a terminal outcome on an error path; the
Session Store entry is indeed cleared, but the final live set is [1]: the
conversion output workspace (id 1), created inside the try block, is still
live — its cleanup_dir sits before the exception point inside the try, not
in the finally — refuting the claim that workspace cleanup executes on
every error path (cleanup unconditional). -/
theorem C3_counterexample :
    (handle_document 0 "in.pdf" 9 (ConvResult.err "boom")
        ((compress_command 0 initState).1)).1.userActions 0 = none ∧
    (handle_document 0 "in.pdf" 9 (ConvResult.err "boom")
        ((compress_command 0 initState).1)).1.live = [1] :=
  ⟨by decide, by decide⟩

/-- C3 (amended): every terminal outcome clears the Session Store, and the
finally-block cleanup runs on every path — but it covers only the upload
workspace (and, for merge, the accumulated and output workspaces), not the
single-file conversion output workspace, which leaks on an engine
exception.  Precisely: (i) a document upload under a pending single-file
intent, within the size limit, ends with no USER_ACTIONS entry and the
upload workspace freed, whatever the engine outcome — success or exception
— because that cleanup sits in a finally block; (ii) a photo upload under
any pending intent likewise; (iii) a merge trigger with at least two files
ends with no entry and every accumulated workspace and the output workspace
freed, for both engine outcomes; (iv) cancellation removes the entry;
(v) however, when a valid single-file document conversion raises, the
conversion output workspace out_dir — allocated as the second fresh
workspace of the operation — is still live afterwards: its cleanup is
inside the try block and is skipped on the exception path. -/
theorem C3_terminal_clears :
    (∀ (s : BotState) (u : Nat) (fname : String) (sizeBytes : Nat)
        (engine : ConvResult) (info : ActionInfo),
        s.userActions u = some info → info.action ≠ Action.merge →
        ¬ MAX_UPLOAD_MB * 1024 * 1024 < sizeBytes →
        (handle_document u fname sizeBytes engine s).1.userActions u = none ∧
        s.nextWs ∉ (handle_document u fname sizeBytes engine s).1.live) ∧
    (∀ (s : BotState) (u sizeBytes : Nat) (engine : ConvResult) (info : ActionInfo),
        s.userActions u = some info →
        (handle_photo u sizeBytes engine s).1.userActions u = none ∧
        s.nextWs ∉ (handle_photo u sizeBytes engine s).1.live) ∧
    (∀ (s : BotState) (u : Nat) (engine : ConvResult) (info : ActionInfo),
        s.userActions u = some info → info.action = Action.merge →
        2 ≤ info.files.length →
        (merge_now u engine s).1.userActions u = none ∧
        (∀ f ∈ info.files, f.1 ∉ (merge_now u engine s).1.live) ∧
        s.nextWs ∉ (merge_now u engine s).1.live) ∧
    (∀ (s : BotState) (u : Nat), (cancel_action u s).1.userActions u = none) ∧
    (∀ (s : BotState) (u : Nat) (fname : String) (sizeBytes : Nat)
        (m : String) (info : ActionInfo),
        s.userActions u = some info → info.action ≠ Action.merge →
        validate info.action fname = true →
        ¬ MAX_UPLOAD_MB * 1024 * 1024 < sizeBytes →
        (s.nextWs + 1) ∈
          (handle_document u fname sizeBytes (ConvResult.err m) s).1.live) := by
  refine ⟨?_, ?_, ?_, ?_, ?_⟩
  · intro s u fname sizeBytes engine info hact hne hsz
    have hm : (info.action = Action.merge) = False := eq_false hne
    simp only [handle_document, if_neg hsz, hact, hm, if_false]
    exact ⟨by simp [cleanup_dir, popAction_self], not_mem_cleanup_self _ _⟩
  · intro s u sizeBytes engine info hact
    simp only [handle_photo, hact]
    exact ⟨by simp [cleanup_dir, popAction_self], not_mem_cleanup_self _ _⟩
  · intro s u engine info hact hm h2
    have hlt : ¬ info.files.length < 2 := by omega
    simp only [merge_now, hact, hm, if_pos rfl, if_neg hlt]
    refine ⟨by simp [cleanup_dir, popAction_self], ?_, not_mem_cleanup_self _ _⟩
    intro f hf
    apply not_mem_cleanup
    show f.1 ∉ (info.files.foldl (fun st g => cleanup_dir g.1 st) _).live
    exact not_mem_foldl_cleanup_of_mem (List.mem_map_of_mem Prod.fst hf)
  · intro s u
    simp [cancel_action, popAction]
  · intro s u fname sizeBytes m info hact hne hv hsz
    have hm : (info.action = Action.merge) = False := eq_false hne
    simp only [handle_document, if_neg hsz, hact, hm, if_false,
      single_file_try, hv, if_true]
    exact mem_cleanup_of_ne (List.mem_cons_self _ _) (Nat.succ_ne_self s.nextWs)

/-- C3 witness: a failing compress conversion for user 0 still clears the
session and frees the upload workspace — while the conversion output
workspace (id 1) stays live. -/
theorem C3_terminal_clears_witness :
    ((handle_document 0 "in.pdf" 9 (ConvResult.err "boom")
        ((compress_command 0 initState).1)).1.userActions 0 = none ∧
     (compress_command 0 initState).1.nextWs ∉
       (handle_document 0 "in.pdf" 9 (ConvResult.err "boom")
         ((compress_command 0 initState).1)).1.live) ∧
    ((compress_command 0 initState).1.nextWs + 1 ∈
      (handle_document 0 "in.pdf" 9 (ConvResult.err "boom")
        ((compress_command 0 initState).1)).1.live) :=
  ⟨C3_terminal_clears.1 ((compress_command 0 initState).1) 0 "in.pdf" 9
      (ConvResult.err "boom") ⟨Action.compress, []⟩ (by decide) (by decide) (by decide),
   C3_terminal_clears.2.2.2.2 ((compress_command 0 initState).1) 0 "in.pdf" 9
      "boom" ⟨Action.compress, []⟩ (by decide) (by decide) (by decide) (by decide)⟩

/-- C4: a merge trigger with fewer than two accumulated files replies with
the insufficient-files notice and returns the state completely unchanged —
the merge session, its file list and every workspace are untouched. -/
theorem C4_insufficient_merge_files (s : BotState) (u : Nat)
    (engine : ConvResult) (info : ActionInfo)
    (hact : s.userActions u = some info)
    (hmerge : info.action = Action.merge)
    (hlen : info.files.length < 2) :
    merge_now u engine s = (s, [msgNeedTwo]) := by
  simp [merge_now, hact, hmerge, hlen]

/-- C4 witness: a merge session holding a single accumulated a.pdf rejects
the trigger and is left intact. -/
theorem C4_insufficient_merge_files_witness :
    merge_now 0 ConvResult.ok
        ((handle_document 0 "a.pdf" 5 ConvResult.ok
          ((merge_command 0 initState).1)).1) =
      ((handle_document 0 "a.pdf" 5 ConvResult.ok
          ((merge_command 0 initState).1)).1, [msgNeedTwo]) :=
  C4_insufficient_merge_files _ 0 ConvResult.ok ⟨Action.merge, [(0, "a.pdf")]⟩
    (by decide) rfl (by decide)

/-- C5 counterexample: user 0 declares merge and uploads a.pdf, so the merge
session holds one file.  A photo upload is then rejected as not matching the
pending action — but the handler finally-block pops USER_ACTIONS, so the
merge session is gone afterwards (while workspace 0 of a.pdf is still live
and now unreachable), contradicting the claim that the merge session is left
otherwise untouched by every rejected upload. -/
theorem C5_counterexample :
    ((handle_document 0 "a.pdf" 5 ConvResult.ok
        ((merge_command 0 initState).1)).1.userActions 0 =
      some ⟨Action.merge, [(0, "a.pdf")]⟩) ∧
    ((handle_photo 0 999 ConvResult.ok
        ((handle_document 0 "a.pdf" 5 ConvResult.ok
          ((merge_command 0 initState).1)).1)).1.userActions 0 = none) ∧
    (0 ∈ (handle_photo 0 999 ConvResult.ok
        ((handle_document 0 "a.pdf" 5 ConvResult.ok
          ((merge_command 0 initState).1)).1)).1.live) :=
  ⟨by decide, by decide, by decide⟩

/-- C5 (amended): during a pending or accumulating merge session, a rejected
DOCUMENT upload (wrong extension) frees only the uploaded workspace and
leaves everything else — USER_ACTIONS, USER_TEMP, the live workspaces —
unchanged; a PHOTO upload, however, frees the photo workspace but removes
the merge session entry entirely, leaving the accumulated workspaces live
and unreferenced. -/
theorem C5_merge_upload_frame (s : BotState) (u : Nat) (fname : String)
    (sizeBytes : Nat) (engine : ConvResult) (info : ActionInfo)
    (hact : s.userActions u = some info)
    (hmerge : info.action = Action.merge)
    (hval : validate Action.merge fname = false)
    (hsize : ¬ MAX_UPLOAD_MB * 1024 * 1024 < sizeBytes)
    (hfresh : s.nextWs ∉ s.live) :
    ((handle_document u fname sizeBytes engine s).1.userActions = s.userActions ∧
     (handle_document u fname sizeBytes engine s).1.userTemp = s.userTemp ∧
     (handle_document u fname sizeBytes engine s).1.live = s.live ∧
     (handle_document u fname sizeBytes engine s).2 =
       ["Downloading file...", msgMergeOnlyPdf]) ∧
    ((handle_photo u sizeBytes engine s).1.userActions u = none ∧
     (∀ w ∈ s.live, w ≠ s.nextWs → w ∈ (handle_photo u sizeBytes engine s).1.live)) := by
  constructor
  · simp only [handle_document, if_neg hsize, hact, hmerge, if_pos rfl, hval,
      Bool.false_eq_true, if_false]
    exact ⟨rfl, rfl, cleanup_ensure_live s hfresh, rfl⟩
  · constructor
    · simp only [handle_photo, hact]
      simp [cleanup_dir, popAction_self]
    · intro w hw hne
      simp only [handle_photo, hact, hmerge]
      have hmm : (Action.merge = Action.jpg_to_pdf ∨ Action.merge = Action.jpg_to_png ∨
          Action.merge = Action.png_to_jpg) = False := by simp
      simp only [photo_try, hmm, if_false]
      exact mem_cleanup_of_ne (List.mem_cons_of_mem _ hw) hne

/-- C5 witness: concrete run — merge pending with one accumulated a.pdf,
then a rejected b.png document upload leaves the session intact, while a
photo upload removes it. -/
theorem C5_merge_upload_frame_witness :
    (let s2 := (handle_document 0 "a.pdf" 5 ConvResult.ok
        ((merge_command 0 initState).1)).1
     ((handle_document 0 "b.png" 5 ConvResult.ok s2).1.userActions = s2.userActions ∧
      (handle_document 0 "b.png" 5 ConvResult.ok s2).1.userTemp = s2.userTemp ∧
      (handle_document 0 "b.png" 5 ConvResult.ok s2).1.live = s2.live ∧
      (handle_document 0 "b.png" 5 ConvResult.ok s2).2 =
        ["Downloading file...", msgMergeOnlyPdf]) ∧
     ((handle_photo 0 5 ConvResult.ok s2).1.userActions 0 = none ∧
      (∀ w ∈ s2.live, w ≠ s2.nextWs → w ∈ (handle_photo 0 5 ConvResult.ok s2).1.live))) :=
  C5_merge_upload_frame _ 0 "b.png" 5 ConvResult.ok ⟨Action.merge, [(0, "a.pdf")]⟩
    (by decide) rfl (by decide) (by decide) (by decide)

/-- A document upload into an existing merge session, within the size limit
and with an accepted name, appends (fresh workspace id, name) at the end of
the accumulated file list. -/
theorem handle_document_merge_accum (s : BotState) (u : Nat) (fname : String)
    (sizeBytes : Nat) (engine : ConvResult) (info : ActionInfo)
    (hact : s.userActions u = some info) (hm : info.action = Action.merge)
    (hv : validate Action.merge fname = true)
    (hsz : ¬ MAX_UPLOAD_MB * 1024 * 1024 < sizeBytes) :
    (handle_document u fname sizeBytes engine s).1 =
      setAction u ⟨Action.merge, info.files ++ [(s.nextWs, fname)]⟩
        (ensure_tempdir s) := by
  simp [handle_document, hsz, hact, hm, hv]

/-- C6: (i) merge_pdfs concatenates the page lists of its inputs, in input
order; (ii) two successive accepted uploads into a merge session accumulate
in upload order — after uploading fA then fB the session file list is
[(w, fA), (w+1, fB)] with w the first upload workspace; (iii) hence merging
two accumulated documents outputs the pages of the first followed by the
pages of the second. -/
theorem C6_merge_preserves_upload_order :
    (∀ docs : List (List Page), merge_pdfs docs = docs.flatten) ∧
    (∀ (s : BotState) (u : Nat) (fA fB : String) (szA szB : Nat)
        (eA eB : ConvResult),
        validate Action.merge fA = true → validate Action.merge fB = true →
        ¬ MAX_UPLOAD_MB * 1024 * 1024 < szA →
        ¬ MAX_UPLOAD_MB * 1024 * 1024 < szB →
        (handle_document u fB szB eB
            ((handle_document u fA szA eA
              ((merge_command u s).1)).1)).1.userActions u =
          some ⟨Action.merge, [(s.nextWs, fA), (s.nextWs + 1, fB)]⟩) ∧
    (∀ pagesA pagesB : List Page, merge_pdfs [pagesA, pagesB] = pagesA ++ pagesB) := by
  refine ⟨?_, ?_, ?_⟩
  · intro docs
    simpa using foldl_append_eq docs []
  · intro s u fA fB szA szB eA eB hvA hvB hszA hszB
    have h1 : (merge_command u s).1.userActions u = some ⟨Action.merge, []⟩ := by
      simp [merge_command, setAction]
    rw [handle_document_merge_accum _ u fA szA eA _ h1 rfl hvA hszA]
    have h2 : (setAction u ⟨Action.merge,
        ([] : List (Nat × String)) ++ [((merge_command u s).1.nextWs, fA)]⟩
        (ensure_tempdir (merge_command u s).1)).userActions u =
        some ⟨Action.merge, [((merge_command u s).1.nextWs, fA)]⟩ := by
      simp [setAction]
    rw [handle_document_merge_accum _ u fB szB eB _ h2 rfl hvB hszB]
    simp [setAction, ensure_tempdir, merge_command]
  · intro pagesA pagesB
    simp [merge_pdfs]

/-- C6 witness: uploading A.pdf then B.pdf from the empty state accumulates
[(0, A.pdf), (1, B.pdf)], and merging two page lists concatenates them. -/
theorem C6_merge_preserves_upload_order_witness :
    ((handle_document 0 "B.pdf" 6 ConvResult.ok
        ((handle_document 0 "A.pdf" 5 ConvResult.ok
          ((merge_command 0 initState).1)).1)).1.userActions 0 =
      some ⟨Action.merge,
        [(initState.nextWs, "A.pdf"), (initState.nextWs + 1, "B.pdf")]⟩) ∧
    merge_pdfs [[1, 2], [3]] = [1, 2] ++ [3] :=
  ⟨C6_merge_preserves_upload_order.2.1 initState 0 "A.pdf" "B.pdf" 5 6
      ConvResult.ok ConvResult.ok (by decide) (by decide) (by decide) (by decide),
   C6_merge_preserves_upload_order.2.2 [1, 2] [3]⟩

/-- The processing step of images_to_pdf never changes the RGB channels of
any pixel: RGBA inputs lose their alpha band, everything else passes
through unmodified. -/
theorem imgStep_rgb (im : Img) :
    (imgStep im).pixels.map rgbOf = im.pixels.map rgbOf := by
  by_cases hm : im.mode = PMode.RGBA
  · simp [imgStep, hm, convertRGB, rgbOf, List.map_map, Function.comp]
  · simp [imgStep, hm]

/-- C7 counterexample: a one-pixel RGBA image, fully transparent with red
channel 200.  images_to_pdf keeps the RGB channels (200, 30, 40) — the
alpha is dropped by Image.convert, not composited — while the compositing
onto white that the claim describes would give (255, 255, 255).  The two
outputs differ. -/
theorem C7_counterexample :
    images_to_pdf [Img.mk PMode.RGBA [Pix.mk 200 30 40 0]] =
      some [Img.mk PMode.RGB [Pix.mk 200 30 40 255]] ∧
    spec_images_to_pdf [Img.mk PMode.RGBA [Pix.mk 200 30 40 0]] =
      some [Img.mk PMode.RGB [Pix.mk 255 255 255 255]] ∧
    images_to_pdf [Img.mk PMode.RGBA [Pix.mk 200 30 40 0]] ≠
      spec_images_to_pdf [Img.mk PMode.RGBA [Pix.mk 200 30 40 0]] :=
  ⟨by decide, by decide, by decide⟩

/-- C7 (amended): for a nonempty image list, images_to_pdf produces one
multi-page document with exactly one page per input image, in input order,
and every page carries the RGB channels of its input pixels unchanged — an
RGBA input has its alpha channel dropped by the RGB conversion, NOT
composited onto a white background.  (White compositing does happen in the
separate convert_image_format JPEG path, modelled by
convert_image_format_jpeg.) -/
theorem C7_images_to_pdf_order (imgs : List Img) (h : imgs ≠ []) :
    ∃ pages : List Img,
      images_to_pdf imgs = some pages ∧
      pages.length = imgs.length ∧
      ∀ (i : Nat) (hi : i < pages.length) (hj : i < imgs.length),
        (pages.get ⟨i, hi⟩).pixels.map rgbOf =
          (imgs.get ⟨i, hj⟩).pixels.map rgbOf := by
  refine ⟨imgs.map imgStep, ?_, by simp, ?_⟩
  · cases imgs with
    | nil => exact absurd rfl h
    | cons a l => simp [images_to_pdf]
  · intro i hi hj
    simp only [List.get_eq_getElem, List.getElem_map]
    exact imgStep_rgb _

/-- C7 witness: the amended statement at a two-image list (one RGBA, one
RGB). -/
theorem C7_images_to_pdf_order_witness :
    ∃ pages : List Img,
      images_to_pdf [Img.mk PMode.RGBA [Pix.mk 200 30 40 0],
        Img.mk PMode.RGB [Pix.mk 1 2 3 255]] = some pages ∧
      pages.length = [Img.mk PMode.RGBA [Pix.mk 200 30 40 0],
        Img.mk PMode.RGB [Pix.mk 1 2 3 255]].length ∧
      ∀ (i : Nat) (hi : i < pages.length)
        (hj : i < [Img.mk PMode.RGBA [Pix.mk 200 30 40 0],
          Img.mk PMode.RGB [Pix.mk 1 2 3 255]].length),
        (pages.get ⟨i, hi⟩).pixels.map rgbOf =
          ([Img.mk PMode.RGBA [Pix.mk 200 30 40 0],
            Img.mk PMode.RGB [Pix.mk 1 2 3 255]].get ⟨i, hj⟩).pixels.map rgbOf :=
  C7_images_to_pdf_order _ (by decide)

/-- C8: file validation is a pure function of the lowercased name and the
intent — names with the same lowercasing validate identically (this is the
case-insensitivity of the rule table) — and the table itself holds:
pdf-input intents (PdfToWord, PdfToJpg, Compress, Merge) accept exactly
.pdf; DocxToPdf accepts .docx and .doc; the three image intents accept
.jpg, .jpeg, .png, .bmp, .tiff; photo.png under PngToJpg is accepted and
report.txt under PdfToWord is rejected. -/
theorem C8_validator_table :
    (∀ (act : Action) (n₁ n₂ : String), lowerStr n₁ = lowerStr n₂ →
        validate act n₁ = validate act n₂) ∧
    (validate Action.png_to_jpg "photo.png" = true ∧
     validate Action.pdf_to_word "report.txt" = false) ∧
    (∀ act ∈ [Action.pdf_to_word, Action.pdf_to_jpg, Action.compress, Action.merge],
        validate act "x.pdf" = true ∧ validate act "X.PDF" = true ∧
        validate act "x.docx" = false ∧ validate act "x.jpg" = false) ∧
    (validate Action.docx_to_pdf "x.docx" = true ∧
     validate Action.docx_to_pdf "x.doc" = true ∧
     validate Action.docx_to_pdf "X.DOC" = true ∧
     validate Action.docx_to_pdf "x.pdf" = false) ∧
    (∀ act ∈ [Action.jpg_to_pdf, Action.png_to_jpg, Action.jpg_to_png],
        validate act "x.jpg" = true ∧ validate act "x.jpeg" = true ∧
        validate act "x.png" = true ∧ validate act "x.bmp" = true ∧
        validate act "x.tiff" = true ∧ validate act "X.TIFF" = true ∧
        validate act "x.pdf" = false ∧ validate act "x.txt" = false) := by
  refine ⟨?_, by decide, by decide, by decide, by decide⟩
  intro act n₁ n₂ h
  unfold validate
  rw [h]

/-- C8 witness: case-insensitivity applied at REPORT.PDF versus report.pdf
under Compress, and the accepted photo.png instance. -/
theorem C8_validator_table_witness :
    validate Action.compress "REPORT.PDF" = validate Action.compress "report.pdf" ∧
    validate Action.png_to_jpg "photo.png" = true :=
  ⟨C8_validator_table.1 Action.compress "REPORT.PDF" "report.pdf" (by decide),
   C8_validator_table.2.1.1⟩

/-- C9: a document upload strictly larger than 50 MB (the float comparison
bytes_to_mb(b) > 50 divides by 2 to the 20, which is exact, so the cut is
exactly b > 50 * 1024 * 1024) is rejected with the fixed size message
before the Session Store is read: USER_ACTIONS and USER_TEMP are unchanged
whatever they held — no hypothesis on the pending intent — and the
workspace allocated for the download is freed, so no workspace is
retained. -/
theorem C9_size_limit (s : BotState) (u : Nat) (fname : String)
    (sizeBytes : Nat) (engine : ConvResult)
    (hsz : MAX_UPLOAD_MB * 1024 * 1024 < sizeBytes)
    (hfresh : s.nextWs ∉ s.live) :
    (handle_document u fname sizeBytes engine s).1.userActions = s.userActions ∧
    (handle_document u fname sizeBytes engine s).1.userTemp = s.userTemp ∧
    (handle_document u fname sizeBytes engine s).1.live = s.live ∧
    (handle_document u fname sizeBytes engine s).2 =
      ["Downloading file...", msgTooLarge] := by
  simp only [handle_document, if_pos hsz]
  exact ⟨rfl, rfl, cleanup_ensure_live s hfresh, trivial⟩

/-- C9 witness: a 50 MB + 1 byte upload while a merge intent is pending is
rejected and the state is untouched. -/
theorem C9_size_limit_witness :
    (handle_document 2 "big.pdf" 52428801 ConvResult.ok
        ((merge_command 2 initState).1)).1.userActions =
      (merge_command 2 initState).1.userActions ∧
    (handle_document 2 "big.pdf" 52428801 ConvResult.ok
        ((merge_command 2 initState).1)).1.userTemp =
      (merge_command 2 initState).1.userTemp ∧
    (handle_document 2 "big.pdf" 52428801 ConvResult.ok
        ((merge_command 2 initState).1)).1.live =
      (merge_command 2 initState).1.live ∧
    (handle_document 2 "big.pdf" 52428801 ConvResult.ok
        ((merge_command 2 initState).1)).2 =
      ["Downloading file...", msgTooLarge] :=
  C9_size_limit ((merge_command 2 initState).1) 2 "big.pdf" 52428801
    ConvResult.ok (by decide) (by decide)

/-- The failure reply of a conversion never equals the size-limit message:
its first character is C, the size message starts with F. -/
theorem conv_failed_ne_tooLarge (m : String) :
    ("Conversion failed: " ++ m) ≠ msgTooLarge := by
  intro h
  have hd : ("Conversion failed: " ++ m).data = msgTooLarge.data :=
    congrArg String.data h
  rw [String.data_append] at hd
  have hh := congrArg List.head? hd
  simp [msgTooLarge] at hh

/-- The mid-conversion replies of the photo handler never equal the
size-limit message. -/
theorem photo_try_no_size_msg (act : Action) (engine : ConvResult)
    (s : BotState) : msgTooLarge ∉ (photo_try act engine s).2 := by
  by_cases hc : act = Action.jpg_to_pdf ∨ act = Action.jpg_to_png ∨
      act = Action.png_to_jpg
  · cases engine with
    | ok =>
        simp only [photo_try, if_pos hc]
        rcases hc with h | h | h <;> subst h <;> decide
    | err m =>
        simp only [photo_try, if_pos hc]
        intro hmem
        rcases List.mem_cons.mp hmem with h | h
        · rcases hc with hh | hh | hh <;> subst hh <;> exact absurd h (by decide)
        · rcases List.mem_cons.mp h with h2 | h2
          · exact conv_failed_ne_tooLarge m h2.symm
          · simp at h2
  · simp only [photo_try, if_neg hc]
    decide

/-- C10: the photo handler performs no size check: (i) its entire behaviour
— state and replies — is independent of the photo size; (ii) the size-limit
message is never among its replies, for any state, size or engine outcome;
(iii) with a matching pending intent (PngToJpg) the photo is dispatched to
its conversion regardless of the size. -/
theorem C10_photo_no_size_check :
    (∀ (s : BotState) (u size₁ size₂ : Nat) (engine : ConvResult),
        handle_photo u size₁ engine s = handle_photo u size₂ engine s) ∧
    (∀ (s : BotState) (u sizeBytes : Nat) (engine : ConvResult),
        msgTooLarge ∉ (handle_photo u sizeBytes engine s).2) ∧
    (∀ (s : BotState) (u sizeBytes : Nat) (info : ActionInfo),
        s.userActions u = some info → info.action = Action.png_to_jpg →
        (handle_photo u sizeBytes ConvResult.ok s).2 =
          ["Downloading photo...", convertingMsg Action.png_to_jpg,
           successMsg Action.png_to_jpg]) := by
  refine ⟨?_, ?_, ?_⟩
  · intro s u size₁ size₂ engine
    rfl
  · intro s u sizeBytes engine
    cases hm : s.userActions u with
    | none =>
        simp only [handle_photo, hm]
        decide
    | some info =>
        simp only [handle_photo, hm]
        intro hmem
        rcases List.mem_cons.mp hmem with h | h
        · exact absurd h (by decide)
        · exact photo_try_no_size_msg info.action engine _ h
  · intro s u sizeBytes info hact hpng
    simp [handle_photo, hact, hpng, photo_try]

/-- C10 witness: a gigantic photo under a pending PngToJpg intent is still
converted, with no size rejection. -/
theorem C10_photo_no_size_check_witness :
    (handle_photo 0 999999999999 ConvResult.ok
        ((set_pending_action 0 Action.png_to_jpg initState).1)).2 =
      ["Downloading photo...", convertingMsg Action.png_to_jpg,
       successMsg Action.png_to_jpg] :=
  C10_photo_no_size_check.2.2 _ 0 999999999999 ⟨Action.png_to_jpg, []⟩
    (by decide) rfl

end RFC
